import Mathlib

/-!
Shallow embedding of the episode outcome-evaluation logic of
`mani_skill2_real2sim/envs/custom_scenes/put_on_in_scene.py`:
the success evaluator `PutOnInSceneEnv.evaluate`, its per-episode
mutable state (`consecutive_grasp` counter and `episode_stats`),
the episode-id to configuration-index mapping of
`PutOnBridgeInSceneEnv.reset`, and the negated-success variant
`PutCarrotOnPlateInSceneLangV4.evaluate`.

Scalars are real numbers; `np.linalg.norm` of a 2- or 3-vector is the
Euclidean norm via `Real.sqrt`.  Python booleans computed from real
comparisons become `Prop`; booleans supplied by the simulator
(`check_grasp`, `check_contact_fingers`) stay `Bool`.
-/

namespace ManiSkill2

/-- A 3-component vector of reals (a numpy array of length 3). -/
structure Vec3 where
  x : ℝ
  y : ℝ
  z : ℝ

/-- `np.linalg.norm` of a 2-vector. -/
noncomputable def norm2 (x y : ℝ) : ℝ := Real.sqrt (x ^ 2 + y ^ 2)

/-- `np.linalg.norm` of a 3-vector. -/
noncomputable def norm3 (v : Vec3) : ℝ := Real.sqrt (v.x ^ 2 + v.y ^ 2 + v.z ^ 2)

/-- One entry of `zip(self.episode_objs, self.episode_obj_xyzs_after_settle)`:
an actor name, its current pose position `obj.pose.p`, and its
after-settle reference position. -/
structure TrackedObj where
  name : String
  pos : Vec3
  xyz_after_settle : Vec3

/-- One contact point of a contact record; only the impulse vector is read. -/
structure ContactPoint where
  impulse : Vec3

/-- One contact record from `self._scene.get_contacts()`: the two actor
names and the list of contact points. -/
structure Contact where
  actor0 : String
  actor1 : String
  points : List ContactPoint

/-- The world state read by one call of `PutOnInSceneEnv.evaluate`. -/
structure WorldSnapshot where
  /-- `self.episode_source_obj.name` -/
  source_obj_name : String
  /-- `self.episode_target_obj.name` -/
  target_obj_name : String
  /-- `self.source_obj_pose.p` -/
  source_obj_pos : Vec3
  /-- `self.target_obj_pose.p` -/
  target_obj_pos : Vec3
  /-- `self.agent.ee_pose.p` -/
  ee_pos : Vec3
  /-- `self.episode_source_obj_xyz_after_settle` -/
  source_obj_xyz_after_settle : Vec3
  /-- `self.episode_objs` zipped with `self.episode_obj_xyzs_after_settle` -/
  episode_objs : List TrackedObj
  /-- `self.episode_source_obj_bbox_world` -/
  source_obj_bbox_world : Vec3
  /-- `self.episode_target_obj_bbox_world` -/
  target_obj_bbox_world : Vec3
  /-- `self._scene.get_contacts()` -/
  contacts : List Contact
  /-- names of `self.agent.robot.get_links()` -/
  robot_link_names : List String
  /-- `self.agent.check_contact_fingers(self.episode_source_obj)` -/
  finger_contacts : List Bool
  /-- `self.agent.check_grasp(self.episode_source_obj)` -/
  is_src_obj_grasped : Bool

/-- `self.episode_stats` ordered dict of `_initialize_episode_stats`. -/
structure EpisodeStats where
  moved_correct_obj : Prop
  moved_wrong_obj : Prop
  is_src_obj_grasped : Prop
  consecutive_grasp : Prop
  src_on_target : Prop
  source_intention : Prop

/-- `_initialize_episode_stats`: every stats field starts false. -/
def initial_episode_stats : EpisodeStats :=
  ⟨False, False, False, False, False, False⟩

/-- The per-episode mutable state: the `self.consecutive_grasp` counter and
`self.episode_stats`. -/
structure EnvState where
  consecutive_grasp : ℕ
  episode_stats : EpisodeStats

/-- State right after `reset` + `_initialize_episode_stats`: counter 0,
all stats false. -/
def reset_state : EnvState := ⟨0, initial_episode_stats⟩

/-- The dict returned by `evaluate`. -/
structure EvalResult where
  moved_correct_obj : Prop
  moved_wrong_obj : Prop
  is_src_obj_grasped : Bool
  consecutive_grasp : Prop
  src_on_target : Prop
  episode_stats : EpisodeStats
  success : Prop

/-- `made_contact = any(self.agent.check_contact_fingers(...))`. -/
def made_contact (s : WorldSnapshot) : Prop := s.finger_contacts.any id = true

/-- `ee_source_dist = np.linalg.norm(ee_pose - source_obj_pose.p)`. -/
noncomputable def ee_source_dist (s : WorldSnapshot) : ℝ :=
  norm3 ⟨s.ee_pos.x - s.source_obj_pos.x, s.ee_pos.y - s.source_obj_pos.y,
         s.ee_pos.z - s.source_obj_pos.z⟩

/-- `close_enough = ee_source_dist < 0.05`. -/
def close_enough (s : WorldSnapshot) : Prop := ee_source_dist s < 0.05

/-- `source_intention_now = made_contact or close_enough`. -/
def source_intention_now (s : WorldSnapshot) : Prop :=
  made_contact s ∨ close_enough s

/-- `source_obj_xy_move_dist`: planar distance between the source object's
after-settle reference and its current position. -/
noncomputable def source_obj_xy_move_dist (s : WorldSnapshot) : ℝ :=
  norm2 (s.source_obj_xyz_after_settle.x - s.source_obj_pos.x)
        (s.source_obj_xyz_after_settle.y - s.source_obj_pos.y)

/-- Planar displacement of one tracked object from its after-settle
reference (`np.linalg.norm(obj_xyz_after_settle[:2] - obj.pose.p[:2])`). -/
noncomputable def obj_xy_move_dist (o : TrackedObj) : ℝ :=
  norm2 (o.xyz_after_settle.x - o.pos.x) (o.xyz_after_settle.y - o.pos.y)

/-- The loop over `episode_objs` skips the entry whose name equals the
source object's name (`if obj.name == self.episode_source_obj.name: continue`). -/
def other_objs (s : WorldSnapshot) : List TrackedObj :=
  s.episode_objs.filter (fun o => ! (o.name == s.source_obj_name))

/-- `other_obj_xy_move_dist`: displacements of every non-source object. -/
noncomputable def other_obj_xy_move_dist (s : WorldSnapshot) : List ℝ :=
  (other_objs s).map obj_xy_move_dist

/-- `moved_correct_obj = (source_obj_xy_move_dist > 0.03) and
all([x < source_obj_xy_move_dist for x in other_obj_xy_move_dist])`. -/
def moved_correct_obj (s : WorldSnapshot) : Prop :=
  source_obj_xy_move_dist s > 0.03 ∧
    ∀ x ∈ other_obj_xy_move_dist s, x < source_obj_xy_move_dist s

/-- `moved_wrong_obj = any([x > 0.03 ...]) and any([x > source_obj_xy_move_dist ...])`. -/
def moved_wrong_obj (s : WorldSnapshot) : Prop :=
  (∃ x ∈ other_obj_xy_move_dist s, x > 0.03) ∧
    (∃ x ∈ other_obj_xy_move_dist s, x > source_obj_xy_move_dist s)

/-- `tgt_obj_half_length_bbox = self.episode_target_obj_bbox_world / 2`. -/
noncomputable def tgt_obj_half_length_bbox (s : WorldSnapshot) : Vec3 :=
  ⟨s.target_obj_bbox_world.x / 2, s.target_obj_bbox_world.y / 2,
   s.target_obj_bbox_world.z / 2⟩

/-- `src_obj_half_length_bbox = self.episode_source_obj_bbox_world / 2`. -/
noncomputable def src_obj_half_length_bbox (s : WorldSnapshot) : Vec3 :=
  ⟨s.source_obj_bbox_world.x / 2, s.source_obj_bbox_world.y / 2,
   s.source_obj_bbox_world.z / 2⟩

/-- `offset = pos_src - pos_tgt`. -/
noncomputable def offset (s : WorldSnapshot) : Vec3 :=
  ⟨s.source_obj_pos.x - s.target_obj_pos.x,
   s.source_obj_pos.y - s.target_obj_pos.y,
   s.source_obj_pos.z - s.target_obj_pos.z⟩

/-- `xy_flag = np.linalg.norm(offset[:2]) <=
np.linalg.norm(tgt_obj_half_length_bbox[:2]) + tol` where `tol` is `0.003`
in the default evaluator and `0.01` in the LangV4 variant. -/
def xy_flag (s : WorldSnapshot) (tol : ℝ) : Prop :=
  norm2 (offset s).x (offset s).y ≤
    norm2 (tgt_obj_half_length_bbox s).x (tgt_obj_half_length_bbox s).y + tol

/-- `z_flag = (offset[2] > 0) and (offset[2] - tgt_half.z - src_half.z <=
z_flag_required_offset)`. -/
def z_flag (s : WorldSnapshot) (z_flag_required_offset : ℝ) : Prop :=
  (offset s).z > 0 ∧
    (offset s).z - (tgt_obj_half_length_bbox s).z - (src_obj_half_length_bbox s).z ≤
      z_flag_required_offset

/-- `other_obj_contact_actor_name`: the other actor of a contact that
involves the source object, if any. -/
def other_obj_contact_actor_name (s : WorldSnapshot) (c : Contact) : Option String :=
  if c.actor0 == s.source_obj_name then some c.actor1
  else if c.actor1 == s.source_obj_name then some c.actor0
  else none

/-- `ignore_actor_names = [tgt_obj_name] + robot_link_names`. -/
def ignore_actor_names (s : WorldSnapshot) : List String :=
  s.target_obj_name :: s.robot_link_names

/-- `contact_impulse = np.sum([point.impulse for point in contact.points], axis=0)`. -/
noncomputable def contact_impulse (c : Contact) : Vec3 :=
  ⟨(c.points.map fun p => p.impulse.x).sum,
   (c.points.map fun p => p.impulse.y).sum,
   (c.points.map fun p => p.impulse.z).sum⟩

/-- A contact that makes the loop set `flag = False`: it involves the
source object, the other actor is outside `ignore_actor_names`, and the
summed impulse has norm above `1e-6`. -/
def disqualifying_contact (s : WorldSnapshot) (c : Contact) : Prop :=
  ∃ nm, other_obj_contact_actor_name s c = some nm ∧
    nm ∉ ignore_actor_names s ∧ norm3 (contact_impulse c) > 1e-6

/-- Final value of `flag` after the contact-scan loop: true iff no contact
disqualifies the placement. -/
def contact_flag (s : WorldSnapshot) : Prop :=
  ¬ ∃ c ∈ s.contacts, disqualifying_contact s c

/-- `PutOnInSceneEnv.evaluate`: one evaluation call.  Returns the result
dict and the updated per-episode state. -/
def PutOnInSceneEnv.evaluate (success_require_src_completely_on_target : Bool)
    (z_flag_required_offset : ℝ) (s : WorldSnapshot) (st : EnvState) :
    EvalResult × EnvState :=
  let consecutive_grasp_count : ℕ :=
    if s.is_src_obj_grasped then st.consecutive_grasp + 1 else 0
  let consecutive_grasp : Prop := consecutive_grasp_count ≥ 5
  let src_on_target : Prop :=
    if success_require_src_completely_on_target then
      (xy_flag s 0.003 ∧ z_flag s z_flag_required_offset) ∧ contact_flag s
    else
      xy_flag s 0.003 ∧ z_flag s z_flag_required_offset
  let success : Prop := src_on_target
  let stats : EpisodeStats :=
    { moved_correct_obj := moved_correct_obj s
      moved_wrong_obj := moved_wrong_obj s
      is_src_obj_grasped :=
        st.episode_stats.is_src_obj_grasped ∨ s.is_src_obj_grasped = true
      consecutive_grasp := st.episode_stats.consecutive_grasp ∨ consecutive_grasp
      src_on_target := src_on_target
      source_intention := st.episode_stats.source_intention ∨ source_intention_now s }
  (⟨moved_correct_obj s, moved_wrong_obj s, s.is_src_obj_grasped,
    consecutive_grasp, src_on_target, stats, success⟩,
   ⟨consecutive_grasp_count, stats⟩)

/-- `PutCarrotOnPlateInSceneLangV4.evaluate`: the negated-success variant.
The `xy_flag` tolerance is `0.01`, the contact-scan refinement is commented
out, `success = (not src_on_target) and moved_correct_obj and
consecutive_grasp`, and the stats record stores `not src_on_target`. -/
def PutCarrotOnPlateInSceneLangV4.evaluate
    (success_require_src_completely_on_target : Bool)
    (z_flag_required_offset : ℝ) (s : WorldSnapshot) (st : EnvState) :
    EvalResult × EnvState :=
  let consecutive_grasp_count : ℕ :=
    if s.is_src_obj_grasped then st.consecutive_grasp + 1 else 0
  let consecutive_grasp : Prop := consecutive_grasp_count ≥ 5
  let src_on_target : Prop := xy_flag s 0.01 ∧ z_flag s z_flag_required_offset
  let success : Prop := ¬ src_on_target ∧ moved_correct_obj s ∧ consecutive_grasp
  let stats : EpisodeStats :=
    { moved_correct_obj := moved_correct_obj s
      moved_wrong_obj := moved_wrong_obj s
      is_src_obj_grasped :=
        st.episode_stats.is_src_obj_grasped ∨ s.is_src_obj_grasped = true
      consecutive_grasp := st.episode_stats.consecutive_grasp ∨ consecutive_grasp
      src_on_target := ¬ src_on_target
      source_intention := st.episode_stats.source_intention ∨ source_intention_now s }
  (⟨moved_correct_obj s, moved_wrong_obj s, s.is_src_obj_grasped,
    consecutive_grasp, src_on_target, stats, success⟩,
   ⟨consecutive_grasp_count, stats⟩)

/-- Index into `self._xy_configs` chosen by `PutOnBridgeInSceneEnv.reset`:
`(episode_id % (len(xy_configs) * len(quat_configs))) // len(quat_configs)`. -/
def xy_config_index (num_xy_configs num_quat_configs episode_id : ℕ) : ℕ :=
  (episode_id % (num_xy_configs * num_quat_configs)) / num_quat_configs

/-- Index into `self._quat_configs` chosen by `PutOnBridgeInSceneEnv.reset`:
`episode_id % len(quat_configs)`. -/
def quat_config_index (num_quat_configs episode_id : ℕ) : ℕ :=
  episode_id % num_quat_configs

/-- Folding `PutOnInSceneEnv.evaluate` over a list of snapshots: the
episode state after a sequence of evaluation calls. -/
def run_evaluate (success_require_src_completely_on_target : Bool)
    (z_flag_required_offset : ℝ) (snaps : List WorldSnapshot)
    (st : EnvState) : EnvState :=
  snaps.foldl
    (fun acc s =>
      (PutOnInSceneEnv.evaluate success_require_src_completely_on_target
        z_flag_required_offset s acc).2)
    st

/-- A neutral snapshot: all coordinates zero, two distinct object names,
no contacts, no finger contacts, no grasp, no tracked objects. -/
def baseSnap : WorldSnapshot :=
  { source_obj_name := "source"
    target_obj_name := "target"
    source_obj_pos := ⟨0, 0, 0⟩
    target_obj_pos := ⟨0, 0, 0⟩
    ee_pos := ⟨0, 0, 0⟩
    source_obj_xyz_after_settle := ⟨0, 0, 0⟩
    episode_objs := []
    source_obj_bbox_world := ⟨0, 0, 0⟩
    target_obj_bbox_world := ⟨0, 0, 0⟩
    contacts := []
    robot_link_names := ["robot_link"]
    finger_contacts := []
    is_src_obj_grasped := false }

/-- Snapshot realizing the spec's placement example: `offset = [0,0,0.05]`,
target half-extent `[0.05,0.05,0.02]` (bbox `[0.1,0.1,0.04]`), source
half-extent `[0,0,0.01]` (bbox `[0,0,0.02]`), no contacts. -/
def placementSnap : WorldSnapshot :=
  { baseSnap with
    source_obj_pos := ⟨0, 0, 0.05⟩
    target_obj_bbox_world := ⟨0.1, 0.1, 0.04⟩
    source_obj_bbox_world := ⟨0, 0, 0.02⟩ }

/-- Same geometry as `placementSnap` plus one contact between the source
object and a third body `"table"` whose summed impulse is `[1e-5, 0, 0]`. -/
def contactSnap : WorldSnapshot :=
  { placementSnap with
    contacts := [⟨"source", "table", [⟨⟨1e-5, 0, 0⟩⟩]⟩] }

/-- Snapshot whose source planar displacement is exactly `0.03`. -/
def boundarySnap : WorldSnapshot :=
  { baseSnap with source_obj_xyz_after_settle := ⟨0.03, 0, 0⟩ }

/-- Two-object snapshot: the source moved `0.04` in the plane, the target
moved `0.05`. -/
def twoObjSnap : WorldSnapshot :=
  { baseSnap with
    source_obj_xyz_after_settle := ⟨0.04, 0, 0⟩
    episode_objs :=
      [⟨"source", ⟨0, 0, 0⟩, ⟨0.04, 0, 0⟩⟩, ⟨"target", ⟨0, 0, 0⟩, ⟨0.05, 0, 0⟩⟩] }

/-- An episode state whose accumulated stats fields are already true. -/
def accumulatedState : EnvState :=
  ⟨0, ⟨False, False, True, True, False, True⟩⟩

theorem norm2_nonneg (x y : ℝ) : 0 ≤ norm2 x y := Real.sqrt_nonneg _

theorem norm2_zero : norm2 0 0 = 0 := by
  unfold norm2
  norm_num

theorem norm2_of_nonneg (a : ℝ) (h : 0 ≤ a) : norm2 a 0 = a := by
  unfold norm2
  rw [show a ^ 2 + 0 ^ 2 = a ^ 2 by ring, Real.sqrt_sq h]

theorem norm3_single_of_nonneg (a : ℝ) (h : 0 ≤ a) : norm3 ⟨a, 0, 0⟩ = a := by
  unfold norm3
  rw [show a ^ 2 + 0 ^ 2 + 0 ^ 2 = a ^ 2 by ring, Real.sqrt_sq h]

theorem placementSnap_xy : xy_flag placementSnap 0.003 := by
  unfold xy_flag offset tgt_obj_half_length_bbox placementSnap baseSnap
  norm_num [norm2, Real.sqrt_zero]
  positivity

theorem placementSnap_z : z_flag placementSnap 0.02 := by
  unfold z_flag offset tgt_obj_half_length_bbox src_obj_half_length_bbox
    placementSnap baseSnap
  norm_num

theorem placementSnap_contact : contact_flag placementSnap := by
  simp [contact_flag, placementSnap, baseSnap]

/-- C1: in `PutOnInSceneEnv.evaluate`, the placement predicate is computed
as `offset = source position - target position`, `xy_flag = planar norm of
offset ≤ planar norm of target half-extent + 0.003`, `z_flag = offset.z > 0
and offset.z - target half-extent z - source half-extent z ≤
z_flag_required_offset`, `src_on_target = xy_flag ∧ z_flag` (refined by the
contact scan when required); and at the spec's concrete example, with
`z_flag_required_offset = 0.02` and no disqualifying contact,
`src_on_target` holds. -/
theorem putOn_src_on_target_formula :
    (∀ (s : WorldSnapshot) (st : EnvState) (zoff : ℝ),
      ((PutOnInSceneEnv.evaluate true zoff s st).1.src_on_target ↔
        ((norm2 (s.source_obj_pos.x - s.target_obj_pos.x)
            (s.source_obj_pos.y - s.target_obj_pos.y) ≤
          norm2 (s.target_obj_bbox_world.x / 2) (s.target_obj_bbox_world.y / 2)
            + 0.003) ∧
         ((s.source_obj_pos.z - s.target_obj_pos.z > 0) ∧
          s.source_obj_pos.z - s.target_obj_pos.z
            - s.target_obj_bbox_world.z / 2 - s.source_obj_bbox_world.z / 2 ≤
              zoff)) ∧
        contact_flag s)) ∧
    (PutOnInSceneEnv.evaluate true 0.02 placementSnap reset_state).1.src_on_target := by
  constructor
  · intro s st zoff
    exact Iff.rfl
  · exact ⟨⟨placementSnap_xy, placementSnap_z⟩, placementSnap_contact⟩

theorem contactSnap_xy : xy_flag contactSnap 0.003 := by
  unfold xy_flag offset tgt_obj_half_length_bbox contactSnap placementSnap baseSnap
  norm_num [norm2, Real.sqrt_zero]
  positivity

theorem contactSnap_z : z_flag contactSnap 0.02 := by
  unfold z_flag offset tgt_obj_half_length_bbox src_obj_half_length_bbox
    contactSnap placementSnap baseSnap
  norm_num

theorem contactSnap_disqualifying :
    ∃ c ∈ contactSnap.contacts, disqualifying_contact contactSnap c := by
  refine ⟨⟨"source", "table", [⟨⟨1e-5, 0, 0⟩⟩]⟩, ?_, ?_⟩
  · simp [contactSnap, placementSnap, baseSnap]
  · refine ⟨"table", ?_, ?_, ?_⟩
    · simp [other_obj_contact_actor_name, contactSnap, placementSnap, baseSnap]
    · simp [ignore_actor_names, contactSnap, placementSnap, baseSnap]
    · have himp : contact_impulse ⟨"source", "table", [⟨⟨1e-5, 0, 0⟩⟩]⟩ =
          ⟨1e-5, 0, 0⟩ := by
        simp [contact_impulse]
      rw [himp, norm3_single_of_nonneg (1e-5) (by norm_num)]
      norm_num

/-- C2: with the contact-exclusivity refinement required, any contact of
the source object with a body outside the ignore list (target object and
robot links) whose summed impulse norm exceeds `1e-6` forces
`src_on_target = false` and `success = false`. -/
theorem putOn_contact_exclusivity (s : WorldSnapshot) (st : EnvState) (zoff : ℝ)
    (h : ∃ c ∈ s.contacts, disqualifying_contact s c) :
    ¬ (PutOnInSceneEnv.evaluate true zoff s st).1.src_on_target ∧
    ¬ (PutOnInSceneEnv.evaluate true zoff s st).1.success := by
  have hs : ¬ (PutOnInSceneEnv.evaluate true zoff s st).1.src_on_target := by
    intro hh
    exact hh.2 h
  exact ⟨hs, hs⟩

/-- Witness for C2 at a snapshot whose geometric flags hold and whose
contact list holds a source–table contact of impulse magnitude `1e-5`. -/
theorem putOn_contact_exclusivity_witness :
    (∃ c ∈ contactSnap.contacts, disqualifying_contact contactSnap c) ∧
    xy_flag contactSnap 0.003 ∧ z_flag contactSnap 0.02 ∧
    ¬ (PutOnInSceneEnv.evaluate true 0.02 contactSnap reset_state).1.src_on_target :=
  ⟨contactSnap_disqualifying, contactSnap_xy, contactSnap_z,
   (putOn_contact_exclusivity contactSnap reset_state 0.02
      contactSnap_disqualifying).1⟩

/-- C3: the LangV4 variant computes
`success ↔ ¬ src_on_target ∧ moved_correct_obj ∧ consecutive_grasp`,
its `src_on_target` is the geometric test with the widened tolerance `0.01`
(no contact refinement, whatever the contact list or the
`success_require_src_completely_on_target` argument), and `src_on_target`
forces `success` false. -/
theorem langV4_success_policy (req : Bool) (zoff : ℝ) (s : WorldSnapshot)
    (st : EnvState) :
    ((PutCarrotOnPlateInSceneLangV4.evaluate req zoff s st).1.success ↔
      (¬ (PutCarrotOnPlateInSceneLangV4.evaluate req zoff s st).1.src_on_target ∧
        moved_correct_obj s ∧
        (PutCarrotOnPlateInSceneLangV4.evaluate req zoff s st).1.consecutive_grasp)) ∧
    ((PutCarrotOnPlateInSceneLangV4.evaluate req zoff s st).1.src_on_target ↔
      (xy_flag s 0.01 ∧ z_flag s zoff)) ∧
    ((PutCarrotOnPlateInSceneLangV4.evaluate req zoff s st).1.src_on_target →
      ¬ (PutCarrotOnPlateInSceneLangV4.evaluate req zoff s st).1.success) := by
  refine ⟨Iff.rfl, Iff.rfl, ?_⟩
  intro h hsucc
  exact hsucc.1 h

theorem placementSnap_xy_01 : xy_flag placementSnap 0.01 := by
  unfold xy_flag offset tgt_obj_half_length_bbox placementSnap baseSnap
  norm_num [norm2, Real.sqrt_zero]
  positivity

theorem placementSnap_langV4_on :
    (PutCarrotOnPlateInSceneLangV4.evaluate true 0.02 placementSnap
      reset_state).1.src_on_target :=
  ⟨placementSnap_xy_01, placementSnap_z⟩

/-- Witness for C3: a call of the LangV4 evaluator where `src_on_target`
holds and therefore `success` fails. -/
theorem langV4_success_policy_witness :
    (PutCarrotOnPlateInSceneLangV4.evaluate true 0.02 placementSnap
      reset_state).1.src_on_target ∧
    ¬ (PutCarrotOnPlateInSceneLangV4.evaluate true 0.02 placementSnap
      reset_state).1.success :=
  ⟨placementSnap_langV4_on,
   (langV4_success_policy true 0.02 placementSnap reset_state).2.2
     placementSnap_langV4_on⟩

/-- C4: the grasp counter is a natural number, set on every call to
`previous + 1` when the grasp detector reports true and to `0` otherwise,
and the call's instantaneous `consecutive_grasp` holds iff the updated
counter is at least 5. -/
theorem putOn_grasp_counter (req : Bool) (zoff : ℝ) (s : WorldSnapshot)
    (st : EnvState) :
    0 ≤ (PutOnInSceneEnv.evaluate req zoff s st).2.consecutive_grasp ∧
    ((PutOnInSceneEnv.evaluate req zoff s st).2.consecutive_grasp =
      if s.is_src_obj_grasped then st.consecutive_grasp + 1 else 0) ∧
    ((PutOnInSceneEnv.evaluate req zoff s st).1.consecutive_grasp ↔
      (PutOnInSceneEnv.evaluate req zoff s st).2.consecutive_grasp ≥ 5) :=
  ⟨Nat.zero_le _, rfl, Iff.rfl⟩

/-- C5: episode-stats initialization clears every field to false; each
evaluation call sets the accumulated fields `is_src_obj_grasped`,
`consecutive_grasp`, `source_intention` to the disjunction of their prior
value with the call's instantaneous value; hence along any sequence of
calls an accumulated field once true stays true. -/
theorem putOn_stats_monotonic :
    (initial_episode_stats.moved_correct_obj = False ∧
     initial_episode_stats.moved_wrong_obj = False ∧
     initial_episode_stats.is_src_obj_grasped = False ∧
     initial_episode_stats.consecutive_grasp = False ∧
     initial_episode_stats.src_on_target = False ∧
     initial_episode_stats.source_intention = False) ∧
    (∀ (req : Bool) (zoff : ℝ) (s : WorldSnapshot) (st : EnvState),
      ((PutOnInSceneEnv.evaluate req zoff s st).2.episode_stats.is_src_obj_grasped ↔
        st.episode_stats.is_src_obj_grasped ∨ s.is_src_obj_grasped = true) ∧
      ((PutOnInSceneEnv.evaluate req zoff s st).2.episode_stats.consecutive_grasp ↔
        st.episode_stats.consecutive_grasp ∨
          (PutOnInSceneEnv.evaluate req zoff s st).1.consecutive_grasp) ∧
      ((PutOnInSceneEnv.evaluate req zoff s st).2.episode_stats.source_intention ↔
        st.episode_stats.source_intention ∨ source_intention_now s)) ∧
    (∀ (req : Bool) (zoff : ℝ) (snaps : List WorldSnapshot) (st : EnvState),
      (st.episode_stats.is_src_obj_grasped →
        (run_evaluate req zoff snaps st).episode_stats.is_src_obj_grasped) ∧
      (st.episode_stats.consecutive_grasp →
        (run_evaluate req zoff snaps st).episode_stats.consecutive_grasp) ∧
      (st.episode_stats.source_intention →
        (run_evaluate req zoff snaps st).episode_stats.source_intention)) := by
  refine ⟨⟨rfl, rfl, rfl, rfl, rfl, rfl⟩,
    fun req zoff s st => ⟨Iff.rfl, Iff.rfl, Iff.rfl⟩, ?_⟩
  intro req zoff snaps
  induction snaps with
  | nil => exact fun st => ⟨id, id, id⟩
  | cons s rest ih =>
    intro st
    refine ⟨fun h => ?_, fun h => ?_, fun h => ?_⟩
    · exact (ih (PutOnInSceneEnv.evaluate req zoff s st).2).1 (Or.inl h)
    · exact (ih (PutOnInSceneEnv.evaluate req zoff s st).2).2.1 (Or.inl h)
    · exact (ih (PutOnInSceneEnv.evaluate req zoff s st).2).2.2 (Or.inl h)

/-- Witness for C5: starting from a state whose accumulated fields are
true, they are still true after a further evaluation call. -/
theorem putOn_stats_monotonic_witness :
    accumulatedState.episode_stats.is_src_obj_grasped ∧
    (run_evaluate true 0.02 [baseSnap] accumulatedState).episode_stats.is_src_obj_grasped ∧
    (run_evaluate true 0.02 [baseSnap] accumulatedState).episode_stats.consecutive_grasp ∧
    (run_evaluate true 0.02 [baseSnap] accumulatedState).episode_stats.source_intention :=
  ⟨trivial,
   (putOn_stats_monotonic.2.2 true 0.02 [baseSnap] accumulatedState).1 trivial,
   (putOn_stats_monotonic.2.2 true 0.02 [baseSnap] accumulatedState).2.1 trivial,
   (putOn_stats_monotonic.2.2 true 0.02 [baseSnap] accumulatedState).2.2 trivial⟩

/-- C6: `moved_correct_obj` holds exactly when the source planar
displacement strictly exceeds `0.03` and every other tracked object's
planar displacement is strictly below it; at a displacement of exactly
`0.03` the predicate is false. -/
theorem putOn_moved_correct_formula :
    (∀ (req : Bool) (zoff : ℝ) (s : WorldSnapshot) (st : EnvState),
      ((PutOnInSceneEnv.evaluate req zoff s st).1.moved_correct_obj ↔
        (source_obj_xy_move_dist s > 0.03 ∧
          ∀ x ∈ other_obj_xy_move_dist s, x < source_obj_xy_move_dist s))) ∧
    source_obj_xy_move_dist boundarySnap = 0.03 ∧
    ¬ (PutOnInSceneEnv.evaluate true 0.02 boundarySnap reset_state).1.moved_correct_obj := by
  have hdist : source_obj_xy_move_dist boundarySnap = 0.03 := by
    show norm2 (0.03 - 0) (0 - 0) = 0.03
    rw [show (0.03 : ℝ) - 0 = 0.03 by norm_num, show (0 : ℝ) - 0 = 0 by norm_num]
    exact norm2_of_nonneg 0.03 (by norm_num)
  refine ⟨fun req zoff s st => Iff.rfl, hdist, ?_⟩
  intro h
  have h03 : source_obj_xy_move_dist boundarySnap > 0.03 := h.1
  rw [hdist] at h03
  exact lt_irrefl _ h03

/-- C7 counterexample: no evaluation call returns `moved_correct_obj` and
`moved_wrong_obj` both true, since the first requires every other
displacement below the source's while the second requires one above it. -/
theorem moved_predicates_never_both :
    ¬ ∃ (req : Bool) (zoff : ℝ) (s : WorldSnapshot) (st : EnvState),
      ((PutOnInSceneEnv.evaluate req zoff s st).1.moved_correct_obj ∧
        (PutOnInSceneEnv.evaluate req zoff s st).1.moved_wrong_obj) := by
  rintro ⟨req, zoff, s, st, ⟨-, hall⟩, -, x, hx, hgt⟩
  exact lt_asymm hgt (hall x hx)

/-- C7 amended: the two moved-object predicates are mutually exclusive
(never both true on any call), and they are not exhaustive: with no
displacement at all, both are false. -/
theorem moved_predicates_exclusive_not_exhaustive :
    (∀ (req : Bool) (zoff : ℝ) (s : WorldSnapshot) (st : EnvState),
      ¬ ((PutOnInSceneEnv.evaluate req zoff s st).1.moved_correct_obj ∧
          (PutOnInSceneEnv.evaluate req zoff s st).1.moved_wrong_obj)) ∧
    (¬ (PutOnInSceneEnv.evaluate true 0.02 baseSnap reset_state).1.moved_correct_obj ∧
     ¬ (PutOnInSceneEnv.evaluate true 0.02 baseSnap reset_state).1.moved_wrong_obj) := by
  refine ⟨?_, ?_, ?_⟩
  · rintro req zoff s st ⟨⟨-, hall⟩, -, x, hx, hgt⟩
    exact lt_asymm hgt (hall x hx)
  · rintro ⟨h03, -⟩
    have hzero : source_obj_xy_move_dist baseSnap = 0 := by
      show norm2 (0 - 0) (0 - 0) = 0
      rw [show (0 : ℝ) - 0 = 0 by norm_num]
      exact norm2_zero
    rw [hzero] at h03
    norm_num at h03
  · rintro ⟨-, x, hx, -⟩
    simp [other_obj_xy_move_dist, other_objs, baseSnap] at hx

/-- C8: the episode-id to configuration-index mapping of
`PutOnBridgeInSceneEnv.reset` inverts
`episode_id = xy_index * num_quat_configs + quat_index` for every in-range
pair of indices. -/
theorem bridge_episode_id_mapping (num_xy num_quat p o : ℕ)
    (hp : p < num_xy) (ho : o < num_quat) :
    xy_config_index num_xy num_quat (p * num_quat + o) = p ∧
    quat_config_index num_quat (p * num_quat + o) = o := by
  have hq : 0 < num_quat := Nat.lt_of_le_of_lt (Nat.zero_le o) ho
  have hlt : p * num_quat + o < num_xy * num_quat := by
    have h1 : (p + 1) * num_quat ≤ num_xy * num_quat :=
      Nat.mul_le_mul_right _ hp
    have h2 : (p + 1) * num_quat = p * num_quat + num_quat := by ring
    omega
  constructor
  · unfold xy_config_index
    rw [Nat.mod_eq_of_lt hlt, Nat.mul_comm p num_quat, Nat.mul_add_div hq,
        Nat.div_eq_of_lt ho]
    omega
  · unfold quat_config_index
    rw [Nat.mul_comm p num_quat, Nat.mul_add_mod, Nat.mod_eq_of_lt ho]

/-- Witness for C8: with 12 position configs and 2 orientation configs,
episode id `5 = 2 * 2 + 1` maps to position index 2 and orientation
index 1. -/
theorem bridge_episode_id_mapping_witness :
    xy_config_index 12 2 (2 * 2 + 1) = 2 ∧
    quat_config_index 2 (2 * 2 + 1) = 1 :=
  bridge_episode_id_mapping 12 2 2 1 (by decide) (by decide)

/-- C9: every LangV4 evaluation call stores the negation of the placement
predicate in the stats record (both in the returned stats and in the
updated state) while the returned result field `src_on_target` carries the
unnegated value. -/
theorem langV4_stats_negation (req : Bool) (zoff : ℝ) (s : WorldSnapshot)
    (st : EnvState) :
    ((PutCarrotOnPlateInSceneLangV4.evaluate req zoff s st).1.episode_stats.src_on_target ↔
      ¬ (PutCarrotOnPlateInSceneLangV4.evaluate req zoff s st).1.src_on_target) ∧
    ((PutCarrotOnPlateInSceneLangV4.evaluate req zoff s st).2.episode_stats.src_on_target ↔
      ¬ (PutCarrotOnPlateInSceneLangV4.evaluate req zoff s st).1.src_on_target) :=
  ⟨Iff.rfl, Iff.rfl⟩

/-- C10: the other-objects list excludes only the source object, so in a
two-object episode it consists exactly of the target's displacement, and a
target displacement at least the source's forces `moved_correct_obj`
false. -/
theorem putOn_target_counts_as_distractor (req : Bool) (zoff : ℝ)
    (s : WorldSnapshot) (st : EnvState) (osrc otgt : TrackedObj)
    (hobjs : s.episode_objs = [osrc, otgt])
    (hsrc : osrc.name = s.source_obj_name)
    (htgt : otgt.name = s.target_obj_name)
    (hne : s.target_obj_name ≠ s.source_obj_name) :
    other_obj_xy_move_dist s = [obj_xy_move_dist otgt] ∧
    (obj_xy_move_dist otgt ≥ source_obj_xy_move_dist s →
      ¬ (PutOnInSceneEnv.evaluate req zoff s st).1.moved_correct_obj) := by
  have hlist : other_obj_xy_move_dist s = [obj_xy_move_dist otgt] := by
    unfold other_obj_xy_move_dist other_objs
    rw [hobjs]
    rw [List.filter_cons, List.filter_cons]
    simp [hsrc, htgt, hne]
  refine ⟨hlist, fun hge h => ?_⟩
  have hall : ∀ x ∈ other_obj_xy_move_dist s, x < source_obj_xy_move_dist s := h.2
  have hmem : obj_xy_move_dist otgt ∈ other_obj_xy_move_dist s := by
    rw [hlist]
    exact List.mem_singleton.mpr rfl
  exact absurd (hall _ hmem) (not_lt.mpr hge)

theorem twoObjSnap_tgt_dist :
    obj_xy_move_dist ⟨"target", ⟨0, 0, 0⟩, ⟨0.05, 0, 0⟩⟩ = 0.05 := by
  show norm2 (0.05 - 0) (0 - 0) = 0.05
  rw [show (0.05 : ℝ) - 0 = 0.05 by norm_num, show (0 : ℝ) - 0 = 0 by norm_num]
  exact norm2_of_nonneg 0.05 (by norm_num)

theorem twoObjSnap_src_dist : source_obj_xy_move_dist twoObjSnap = 0.04 := by
  show norm2 (0.04 - 0) (0 - 0) = 0.04
  rw [show (0.04 : ℝ) - 0 = 0.04 by norm_num, show (0 : ℝ) - 0 = 0 by norm_num]
  exact norm2_of_nonneg 0.04 (by norm_num)

/-- Witness for C10: in the two-object snapshot, the other-objects list is
exactly the target's displacement, and since the target moved `0.05` while
the source moved `0.04`, `moved_correct_obj` is false. -/
theorem putOn_target_counts_as_distractor_witness :
    twoObjSnap.episode_objs =
      [⟨"source", ⟨0, 0, 0⟩, ⟨0.04, 0, 0⟩⟩, ⟨"target", ⟨0, 0, 0⟩, ⟨0.05, 0, 0⟩⟩] ∧
    obj_xy_move_dist ⟨"target", ⟨0, 0, 0⟩, ⟨0.05, 0, 0⟩⟩ ≥
      source_obj_xy_move_dist twoObjSnap ∧
    other_obj_xy_move_dist twoObjSnap =
      [obj_xy_move_dist ⟨"target", ⟨0, 0, 0⟩, ⟨0.05, 0, 0⟩⟩] ∧
    ¬ (PutOnInSceneEnv.evaluate true 0.02 twoObjSnap reset_state).1.moved_correct_obj := by
  have hge : obj_xy_move_dist (⟨"target", ⟨0, 0, 0⟩, ⟨0.05, 0, 0⟩⟩ : TrackedObj) ≥
      source_obj_xy_move_dist twoObjSnap := by
    rw [twoObjSnap_tgt_dist, twoObjSnap_src_dist]
    norm_num
  have hmain := putOn_target_counts_as_distractor true 0.02 twoObjSnap reset_state
    ⟨"source", ⟨0, 0, 0⟩, ⟨0.04, 0, 0⟩⟩ ⟨"target", ⟨0, 0, 0⟩, ⟨0.05, 0, 0⟩⟩
    rfl rfl rfl (by decide)
  exact ⟨rfl, hge, hmain.1, hmain.2 hge⟩

end ManiSkill2
